import Mathlib

/-!
Verification development for the StockPocket conversational financial
assistant (React Native / TypeScript).  The services layer is shallowly
embedded: pure TypeScript logic becomes Lean functions; JavaScript runtime
values that matter to the code (undefined, truthiness, `||` defaulting)
are modelled explicitly; external I/O (the Gemini backend, HTTP fetch,
`new URL(...).hostname`, clocks, the authenticated user) is supplied
through explicit environment records so that the embedded functions stay
pure and executable.
-/

set_option maxRecDepth 4096

namespace StockPocket

/-! ## JavaScript value model

`JsVal` models the dynamic JavaScript/JSON values that flow through the
gateway parsers and the Firestore sanitizer.  `jsUndefined` is JavaScript's
`undefined` (distinct from JSON `null`). -/

inductive JsVal where
  | jsUndefined
  | null
  | bool (b : Bool)
  | num (n : Int)
  | str (s : String)
  | arr (elems : List JsVal)
  | obj (fields : List (String × JsVal))
deriving Repr

/-- JavaScript truthiness: `undefined`, `null`, `false`, `0` and `""` are
falsy; every object and array (even empty) is truthy. -/
def JsVal.truthy : JsVal → Bool
  | .jsUndefined => false
  | .null => false
  | .bool b => b
  | .num n => n != 0
  | .str s => s != ""
  | .arr _ => true
  | .obj _ => true

/-- Property access `v.k`: on objects the first binding wins, everything
else yields `undefined` (the embedded code only dereferences values it has
already guarded). -/
def JsVal.get (v : JsVal) (k : String) : JsVal :=
  match v with
  | .obj fields =>
    match fields.find? (fun f => f.1 = k) with
    | some f => f.2
    | none => .jsUndefined
  | _ => .jsUndefined

/-- JavaScript `a || b`. -/
def jor (a b : JsVal) : JsVal := if a.truthy then a else b

/-- `v === s` for a string literal `s`. -/
def JsVal.isStr (v : JsVal) (s : String) : Bool :=
  match v with
  | .str t => t = s
  | _ => false

/-- `s1 || s2` restricted to strings (only `""` is falsy). -/
def jsStrOr (s d : String) : String := if s = "" then d else s

/-- `n || d` restricted to numbers (only `0` is falsy; NaN does not arise
for the integer-valued timestamps modelled here). -/
def jsIntOr (n d : Int) : Int := if n = 0 then d else n

/-- `o || d` for a possibly-absent string (JS `undefined` and `""` are both
falsy). -/
def jsOptStrOr (o : Option String) (d : String) : String :=
  match o with
  | some s => if s = "" then d else s
  | none => d

/-- Character-list substring search (scan every suffix for a prefix
match). -/
def containsSubList (needle : List Char) : List Char → Bool
  | [] => needle.isEmpty
  | c :: t => needle.isPrefixOf (c :: t) || containsSubList needle t

/-- `hay.includes(needle)`. -/
def containsSub (hay needle : String) : Bool :=
  containsSubList needle.data hay.data

/-! ## Data model (`app/types/index.ts`) -/

/-- `FileAttachment.type`. -/
inductive FileType where
  | pdf
  | excel
  | csv
  | txt
deriving DecidableEq, Repr

/-- The string the category serializes to. -/
def FileType.toStr : FileType → String
  | .pdf => "pdf"
  | .excel => "excel"
  | .csv => "csv"
  | .txt => "txt"

/-- `FileAttachment`.  `content` is required by the TypeScript interface,
but the object the remote store hands back lacks the field entirely, so it
is modelled as optional. -/
structure FileAttachment where
  id : String
  name : String
  type : FileType
  size : Nat
  uri : String
  content : Option String
  mimeType : String
deriving DecidableEq, Repr

/-- Gemini-facing `Attachment`. -/
structure Attachment where
  name : String
  mimeType : String
  data : String
deriving DecidableEq, Repr

/-- `GroundingSource`. -/
structure GroundingSource where
  uri : String
  title : String
deriving DecidableEq, Repr

/-- `Message.role`. -/
inductive MsgRole where
  | user
  | assistant
deriving DecidableEq, Repr

def MsgRole.toStr : MsgRole → String
  | .user => "user"
  | .assistant => "assistant"

/-- `Message`; the `?`-marked TypeScript fields are `Option`s. -/
structure Message where
  id : String
  content : String
  role : MsgRole
  timestamp : Int
  attachments : Option (List FileAttachment)
  sources : Option (List GroundingSource)
  isPlaceholder : Option Bool
deriving DecidableEq, Repr

/-- `ChatSession`. -/
structure ChatSession where
  id : String
  title : String
  messages : List Message
  createdAt : Int
  updatedAt : Int
  attachments : List FileAttachment
deriving DecidableEq, Repr

/-! ## File validation (`fileService.validateFile`) -/

/-- Result shape `{ valid: boolean; error?: string }`. -/
structure ValidationResult where
  valid : Bool
  error : Option String
deriving DecidableEq, Repr

/-- The per-category size allowance from `validateFile`:
`file.type === 'pdf' ? 10 * 1024 * 1024 : 5 * 1024 * 1024`. -/
def maxFileSize (t : FileType) : Nat :=
  if t = .pdf then 10 * 1024 * 1024 else 5 * 1024 * 1024

/-- The `TooLarge` message built by `validateFile`. -/
def tooLargeMsg (t : FileType) : String :=
  "File terlalu besar. Maksimal " ++ (if t = .pdf then "10MB" else "5MB")

/-- The `Empty` message built by `validateFile`. -/
def emptyFileMsg : String := "File kosong atau tidak dapat dibaca"

/-- `fileService.validateFile`: size is checked first against the
per-category allowance, then the content is required to be present and
non-empty (`!file.content || file.content.length === 0`). -/
def validateFile (file : FileAttachment) : ValidationResult :=
  let maxSize := maxFileSize file.type
  if file.size > maxSize then
    { valid := false, error := some (tooLargeMsg file.type) }
  else if (match file.content with
           | none => true
           | some c => c.length = 0) then
    { valid := false, error := some emptyFileMsg }
  else
    { valid := true, error := none }

/-! ## External Data Gateway (`externalDataService.ts`, `fmpService.ts`)

HTTP is modelled by an environment function from the request URL to a
`FetchResult`; each gateway function returns its value paired with the
list of URLs it actually fetched, so "no network call" is the statement
that this list is empty. -/

/-- Outcome of `fetch(url)` followed by `response.json()`: either some
step threw (network failure or malformed body), or a response with its
`ok` flag and parsed JSON body. -/
inductive FetchResult where
  | thrown
  | resp (ok : Bool) (body : JsVal)

/-- Environment of `externalDataService.ts`: the resolved `FMP_API_KEY`
(defaults to the placeholder `"demo"` when unconfigured), the platform's
`encodeURIComponent`, the current time for `new Date().toISOString()`,
and the network. -/
structure FmpEnv where
  apikey : String
  urlEncode : String → String
  nowISO : String
  fetch : String → FetchResult

/-- Environment for the NewsAPI fallback: the resolved `NEWS_API_KEY`
(defaults to `"demo"`). -/
structure NewsEnv where
  apikey : String
  urlEncode : String → String
  fetch : String → FetchResult

/-- Environment of `fmpService.ts`: its `EXPO_PUBLIC_FMP_API_KEY`
(defaults to `""`). -/
structure FmpSvcEnv where
  apikey : String
  urlEncode : String → String
  fetch : String → FetchResult

def FMP_BASE_URL : String := "https://financialmodelingprep.com/stable"

/-- `externalDataService.checkApiKey`: `FMP_API_KEY && FMP_API_KEY !== 'demo'`. -/
def checkApiKey (k : String) : Bool := k != "" && k != "demo"

/-- `fmpService.IS_FMP_ENABLED`: `API_KEY && API_KEY.length > 5`. -/
def isFmpEnabled (k : String) : Bool := k != "" && k.length > 5

/-- `data[0]` (undefined on an empty array) when the body is an array,
else the body itself: `Array.isArray(data) ? data[0] : data`. -/
def firstOrSelf (data : JsVal) : JsVal :=
  match data with
  | .arr xs => xs.headD .jsUndefined
  | _ => data

/-- `Array.isArray(data) ? data : []`. -/
def arrOrEmpty (data : JsVal) : List JsVal :=
  match data with
  | .arr xs => xs
  | _ => []

/-- `StockNewsItem` (field values stay dynamic). -/
structure StockNewsItem where
  title : JsVal
  publishedDate : JsVal
  source : JsVal
  summary : JsVal
  url : JsVal
deriving Repr

/-- `MacroNewsItem`. -/
structure MacroNewsItem where
  title : JsVal
  publishedDate : JsVal
  source : JsVal
  summary : JsVal
  url : JsVal
deriving Repr

/-- `StockQuote` as built by `externalDataService.fetchStockQuote`. -/
structure StockQuote where
  symbol : JsVal
  name : JsVal
  price : JsVal
  change : JsVal
  changesPercentage : JsVal
  dayLow : JsVal
  dayHigh : JsVal
  yearLow : JsVal
  yearHigh : JsVal
  marketCap : JsVal
  volume : JsVal
  avgVolume : JsVal
  openPrice : JsVal -- `open` in the source; renamed (Lean keyword)
  previousClose : JsVal
  pe : JsVal
  eps : JsVal
  earningsAnnouncement : JsVal
deriving Repr

/-- `CompanyProfile` as built by `externalDataService.fetchCompanyProfile`. -/
structure CompanyProfile where
  symbol : JsVal
  companyName : JsVal
  currency : JsVal
  exchange : JsVal
  industry : JsVal
  sector : JsVal
  country : JsVal
  description : JsVal
  ceo : JsVal
  website : JsVal
  employees : JsVal
  marketCap : JsVal
  price : JsVal
  beta : JsVal
  ipoDate : JsVal
deriving Repr

/-- `FinancialStatement` rows of `externalDataService.fetchIncomeStatement`. -/
structure FinancialStatement where
  date : JsVal
  period : JsVal
  revenue : JsVal
  netIncome : JsVal
  grossProfit : JsVal
  operatingIncome : JsVal
  eps : JsVal
deriving Repr

/-- `KeyMetrics` as built by `externalDataService.fetchKeyMetrics`. -/
structure KeyMetrics where
  symbol : JsVal
  date : JsVal
  peRatio : JsVal
  pbRatio : JsVal
  debtToEquity : JsVal
  currentRatio : JsVal
  roe : JsVal
  roa : JsVal
  dividendYield : JsVal
  priceToSalesRatio : JsVal
  enterpriseValue : JsVal
deriving Repr

/-- A row of `externalDataService.searchStocks`. -/
structure SearchStockItem where
  symbol : JsVal
  name : JsVal
  exchange : JsVal
  currency : JsVal
deriving Repr

/-- `parseInt` on a dynamic value, as used for `fullTimeEmployees`;
NaN is rendered as `undef`, which is equally falsy under `jor`. -/
def jsParseInt (v : JsVal) : JsVal :=
  match v with
  | .num n => .num n
  | .str s =>
    let t := s.trim
    let neg := t.startsWith "-"
    let rest := if neg || t.startsWith "+" then t.drop 1 else t
    let digits := rest.takeWhile Char.isDigit
    match digits.toNat? with
    | some n => .num (if neg then -(n : Int) else (n : Int))
    | none => .jsUndefined
  | _ => .jsUndefined

/-- `externalDataService.fetchStockNews` — news is disabled (the FMP news
endpoint needs a paid plan): the function logs and returns `[]` without
touching the network, for every ticker (possibly `undefined`, hence
`Option String`) and regardless of the configured key. -/
def fetchStockNews (_env : FmpEnv) (_ticker : Option String) :
    List StockNewsItem × List String :=
  ([], [])

/-- `externalDataService.fetchMacroNewsFromNewsAPI`. -/
def fetchMacroNewsFromNewsAPI (env : NewsEnv) (query : String) :
    List MacroNewsItem × List String :=
  if env.apikey = "" || env.apikey = "demo" then
    ([], [])
  else
    let url := "https://newsapi.org/v2/everything?q=" ++ env.urlEncode query ++
      "&language=id&sortBy=publishedAt&pageSize=5&apiKey=" ++ env.apikey
    match env.fetch url with
    | .thrown => ([], [url])
    | .resp _ data =>
      if !((data.get "status").isStr "ok") then
        ([], [url])
      else
        match data.get "articles" with
        | .arr items =>
          (items.map (fun item =>
            { title := jor (item.get "title") (.str ""),
              publishedDate := jor (item.get "publishedAt") (.str ""),
              source := jor ((item.get "source").get "name") (.str ""),
              summary := jor (item.get "description") (.str ""),
              url := jor (item.get "url") (.str "") }), [url])
        | _ => ([], [url]) -- `.map` on a non-array throws; caught, `[]`

/-- `externalDataService.fetchMacroNews` — the FMP macro endpoint is
disabled; falls through to NewsAPI.  A missing argument triggers the
`query = "economy"` default parameter. -/
def fetchMacroNews (env : NewsEnv) (query : Option String) :
    List MacroNewsItem × List String :=
  fetchMacroNewsFromNewsAPI env (query.getD "economy")

/-- `externalDataService.fetchStockQuote`. -/
def fetchStockQuote (env : FmpEnv) (ticker : String) :
    Option StockQuote × List String :=
  if !(checkApiKey env.apikey) then (none, [])
  else
    let url := FMP_BASE_URL ++ "/quote?symbol=" ++ ticker ++ "&apikey=" ++ env.apikey
    match env.fetch url with
    | .thrown => (none, [url])
    | .resp ok data =>
      if !ok then (none, [url])
      else
        let quote := firstOrSelf data
        if !quote.truthy then (none, [url])
        else
          (some
            { symbol := jor (quote.get "symbol") (.str ticker),
              name := jor (quote.get "name") (jor (quote.get "companyName") (.str "")),
              price := jor (quote.get "price") (.num 0),
              change := jor (quote.get "change") (.num 0),
              changesPercentage := jor (quote.get "changesPercentage") (.num 0),
              dayLow := jor (quote.get "dayLow") (.num 0),
              dayHigh := jor (quote.get "dayHigh") (.num 0),
              yearLow := jor (quote.get "yearLow") (.num 0),
              yearHigh := jor (quote.get "yearHigh") (.num 0),
              marketCap := jor (quote.get "marketCap") (.num 0),
              volume := jor (quote.get "volume") (.num 0),
              avgVolume := jor (quote.get "avgVolume") (.num 0),
              openPrice := jor (quote.get "open") (.num 0),
              previousClose := jor (quote.get "previousClose") (.num 0),
              pe := jor (quote.get "pe") (.num 0),
              eps := jor (quote.get "eps") (.num 0),
              earningsAnnouncement := jor (quote.get "earningsAnnouncement") (.str "") },
            [url])

/-- `externalDataService.fetchCompanyProfile`. -/
def fetchCompanyProfile (env : FmpEnv) (ticker : String) :
    Option CompanyProfile × List String :=
  if !(checkApiKey env.apikey) then (none, [])
  else
    let url := FMP_BASE_URL ++ "/profile?symbol=" ++ ticker ++ "&apikey=" ++ env.apikey
    match env.fetch url with
    | .thrown => (none, [url])
    | .resp ok data =>
      if !ok then (none, [url])
      else
        let profile := firstOrSelf data
        if !profile.truthy then (none, [url])
        else
          (some
            { symbol := jor (profile.get "symbol") (.str ticker),
              companyName := jor (profile.get "companyName") (jor (profile.get "name") (.str "")),
              currency := jor (profile.get "currency") (.str "USD"),
              exchange := jor (profile.get "exchangeShortName") (jor (profile.get "exchange") (.str "")),
              industry := jor (profile.get "industry") (.str ""),
              sector := jor (profile.get "sector") (.str ""),
              country := jor (profile.get "country") (.str ""),
              description := jor (profile.get "description") (.str ""),
              ceo := jor (profile.get "ceo") (.str ""),
              website := jor (profile.get "website") (.str ""),
              employees := jor (jsParseInt (profile.get "fullTimeEmployees")) (.num 0),
              marketCap := jor (profile.get "mktCap") (jor (profile.get "marketCap") (.num 0)),
              price := jor (profile.get "price") (.num 0),
              beta := jor (profile.get "beta") (.num 0),
              ipoDate := jor (profile.get "ipoDate") (.str "") },
            [url])

/-- `externalDataService.fetchIncomeStatement`. -/
def fetchIncomeStatement (env : FmpEnv) (ticker : String) (period : String)
    (limit : Nat) : List FinancialStatement × List String :=
  if !(checkApiKey env.apikey) then ([], [])
  else
    let url := FMP_BASE_URL ++ "/income-statement?symbol=" ++ ticker ++
      "&period=" ++ period ++ "&limit=" ++ toString limit ++ "&apikey=" ++ env.apikey
    match env.fetch url with
    | .thrown => ([], [url])
    | .resp ok data =>
      if !ok then ([], [url])
      else
        match data with
        | .arr items =>
          (items.map (fun item =>
            { date := jor (item.get "date") (.str ""),
              period := jor (item.get "period") (.str period),
              revenue := jor (item.get "revenue") (.num 0),
              netIncome := jor (item.get "netIncome") (.num 0),
              grossProfit := jor (item.get "grossProfit") (.num 0),
              operatingIncome := jor (item.get "operatingIncome") (.num 0),
              eps := jor (item.get "eps") (.num 0) }), [url])
        | _ => ([], [url]) -- `!Array.isArray(data)`

/-- `externalDataService.fetchKeyMetrics`. -/
def fetchKeyMetrics (env : FmpEnv) (ticker : String) :
    Option KeyMetrics × List String :=
  if !(checkApiKey env.apikey) then (none, [])
  else
    let url := FMP_BASE_URL ++ "/key-metrics-ttm?symbol=" ++ ticker ++ "&apikey=" ++ env.apikey
    match env.fetch url with
    | .thrown => (none, [url])
    | .resp ok data =>
      if !ok then (none, [url])
      else
        let metrics := firstOrSelf data
        if !metrics.truthy then (none, [url])
        else
          (some
            { symbol := .str ticker,
              date := jor (metrics.get "date") (.str env.nowISO),
              peRatio := jor (metrics.get "peRatioTTM") (.num 0),
              pbRatio := jor (metrics.get "pbRatioTTM") (.num 0),
              debtToEquity := jor (metrics.get "debtToEquityTTM") (.num 0),
              currentRatio := jor (metrics.get "currentRatioTTM") (.num 0),
              roe := jor (metrics.get "roeTTM") (.num 0),
              roa := jor (metrics.get "roaTTM") (.num 0),
              dividendYield := jor (metrics.get "dividendYieldTTM") (.num 0),
              priceToSalesRatio := jor (metrics.get "priceToSalesRatioTTM") (.num 0),
              enterpriseValue := jor (metrics.get "enterpriseValueTTM") (.num 0) },
            [url])

/-- `externalDataService.searchStocks`. -/
def searchStocks (env : FmpEnv) (query : String) :
    List SearchStockItem × List String :=
  if !(checkApiKey env.apikey) then ([], [])
  else
    let url := FMP_BASE_URL ++ "/search-symbol?query=" ++ env.urlEncode query ++
      "&limit=10&apikey=" ++ env.apikey
    match env.fetch url with
    | .thrown => ([], [url])
    | .resp ok data =>
      if !ok then ([], [url])
      else
        match data with
        | .arr items =>
          (items.map (fun item =>
            { symbol := item.get "symbol",
              name := item.get "name",
              exchange := jor (item.get "exchangeShortName") (item.get "exchange"),
              currency := item.get "currency" }), [url])
        | _ => ([], [url])

/-- `externalDataService.fetchMarketGainers`. -/
def fetchMarketGainers (env : FmpEnv) : List JsVal × List String :=
  if !(checkApiKey env.apikey) then ([], [])
  else
    let url := FMP_BASE_URL ++ "/biggest-gainers?apikey=" ++ env.apikey
    match env.fetch url with
    | .thrown => ([], [url])
    | .resp ok data =>
      if !ok then ([], [url])
      else ((arrOrEmpty data).take 10, [url])

/-- `externalDataService.fetchMarketLosers`. -/
def fetchMarketLosers (env : FmpEnv) : List JsVal × List String :=
  if !(checkApiKey env.apikey) then ([], [])
  else
    let url := FMP_BASE_URL ++ "/biggest-losers?apikey=" ++ env.apikey
    match env.fetch url with
    | .thrown => ([], [url])
    | .resp ok data =>
      if !ok then ([], [url])
      else ((arrOrEmpty data).take 10, [url])

/-! `fmpService.ts` (class `FMPService`); bodies return the parsed JSON
value directly (`data[0]` / `data`), so results stay `JsVal`-typed. -/

/-- `fmpService.getQuote`; `return null` is JS `null`. -/
def getQuote (env : FmpSvcEnv) (symbol : String) : JsVal × List String :=
  if !(isFmpEnabled env.apikey) then (.null, [])
  else
    let url := FMP_BASE_URL ++ "/quote?symbol=" ++ symbol ++ "&apikey=" ++ env.apikey
    match env.fetch url with
    | .thrown => (.null, [url])
    | .resp _ data =>
      if (data.get "error").truthy then (.null, [url])
      else (firstOrSelf data, [url])

/-- `fmpService.getCompanyProfile`. -/
def getCompanyProfile (env : FmpSvcEnv) (symbol : String) : JsVal × List String :=
  if !(isFmpEnabled env.apikey) then (.null, [])
  else
    let url := FMP_BASE_URL ++ "/profile?symbol=" ++ symbol ++ "&apikey=" ++ env.apikey
    match env.fetch url with
    | .thrown => (.null, [url])
    | .resp _ data =>
      if (data.get "error").truthy then (.null, [url])
      else (firstOrSelf data, [url])

/-- `fmpService.getStockNews` — disabled: returns `[]` unconditionally,
with no fetch, whatever the symbol, limit or configured key. -/
def getStockNews (_env : FmpSvcEnv) (_symbol : String) (_limit : Nat) :
    List JsVal × List String :=
  ([], [])

/-- `fmpService.getGeneralNews` — likewise disabled. -/
def getGeneralNews (_env : FmpSvcEnv) (_limit : Nat) : List JsVal × List String :=
  ([], [])

/-- `fmpService.getIncomeStatement`. -/
def getIncomeStatement (env : FmpSvcEnv) (symbol : String) (period : String)
    (limit : Nat) : List JsVal × List String :=
  if !(isFmpEnabled env.apikey) then ([], [])
  else
    let url := FMP_BASE_URL ++ "/income-statement?symbol=" ++ symbol ++
      "&period=" ++ period ++ "&limit=" ++ toString limit ++ "&apikey=" ++ env.apikey
    match env.fetch url with
    | .thrown => ([], [url])
    | .resp _ data =>
      if (data.get "error").truthy then ([], [url])
      else (arrOrEmpty data, [url])

/-- `fmpService.getBalanceSheet`. -/
def getBalanceSheet (env : FmpSvcEnv) (symbol : String) (period : String)
    (limit : Nat) : List JsVal × List String :=
  if !(isFmpEnabled env.apikey) then ([], [])
  else
    let url := FMP_BASE_URL ++ "/balance-sheet-statement?symbol=" ++ symbol ++
      "&period=" ++ period ++ "&limit=" ++ toString limit ++ "&apikey=" ++ env.apikey
    match env.fetch url with
    | .thrown => ([], [url])
    | .resp _ data =>
      if (data.get "error").truthy then ([], [url])
      else (arrOrEmpty data, [url])

/-- `fmpService.getCashFlowStatement`. -/
def getCashFlowStatement (env : FmpSvcEnv) (symbol : String) (period : String)
    (limit : Nat) : List JsVal × List String :=
  if !(isFmpEnabled env.apikey) then ([], [])
  else
    let url := FMP_BASE_URL ++ "/cash-flow-statement?symbol=" ++ symbol ++
      "&period=" ++ period ++ "&limit=" ++ toString limit ++ "&apikey=" ++ env.apikey
    match env.fetch url with
    | .thrown => ([], [url])
    | .resp _ data =>
      if (data.get "error").truthy then ([], [url])
      else (arrOrEmpty data, [url])

/-- `fmpService.getKeyMetrics`. -/
def getKeyMetrics (env : FmpSvcEnv) (symbol : String) (period : String)
    (limit : Nat) : List JsVal × List String :=
  if !(isFmpEnabled env.apikey) then ([], [])
  else
    let url := FMP_BASE_URL ++ "/key-metrics?symbol=" ++ symbol ++
      "&period=" ++ period ++ "&limit=" ++ toString limit ++ "&apikey=" ++ env.apikey
    match env.fetch url with
    | .thrown => ([], [url])
    | .resp _ data =>
      if (data.get "error").truthy then ([], [url])
      else (arrOrEmpty data, [url])

/-- `fmpService.getBiggestGainers`. -/
def getBiggestGainers (env : FmpSvcEnv) : List JsVal × List String :=
  if !(isFmpEnabled env.apikey) then ([], [])
  else
    let url := FMP_BASE_URL ++ "/biggest-gainers?apikey=" ++ env.apikey
    match env.fetch url with
    | .thrown => ([], [url])
    | .resp _ data =>
      if (data.get "error").truthy then ([], [url])
      else (arrOrEmpty data, [url])

/-- `fmpService.getBiggestLosers`. -/
def getBiggestLosers (env : FmpSvcEnv) : List JsVal × List String :=
  if !(isFmpEnabled env.apikey) then ([], [])
  else
    let url := FMP_BASE_URL ++ "/biggest-losers?apikey=" ++ env.apikey
    match env.fetch url with
    | .thrown => ([], [url])
    | .resp _ data =>
      if (data.get "error").truthy then ([], [url])
      else (arrOrEmpty data, [url])

/-- `fmpService.searchSymbol`. -/
def searchSymbol (env : FmpSvcEnv) (query : String) (limit : Nat) :
    List JsVal × List String :=
  if !(isFmpEnabled env.apikey) then ([], [])
  else
    let url := FMP_BASE_URL ++ "/search?query=" ++ env.urlEncode query ++
      "&limit=" ++ toString limit ++ "&apikey=" ++ env.apikey
    match env.fetch url with
    | .thrown => ([], [url])
    | .resp _ data =>
      if (data.get "error").truthy then ([], [url])
      else (arrOrEmpty data, [url])

/-! ## Conversation Orchestrator (`geminiService.generateFinancialAdvice`)

The Gemini SDK is modelled by an oracle `backend : Nat → GemOutcome`
giving the outcome of the n-th `ai.models.generateContent` call of the
invocation (throw or response); `new URL(uri).hostname` is the platform
function `hostname`.  `generateFinancialAdvice` returns its result
together with the list of backend requests it issued, in order. -/

/-- Content role accepted by the backend. -/
inductive GRole where
  | user
  | model
deriving DecidableEq, Repr

/-- A `functionCall` part of a backend response (`name`, `args`, optional
`id`); the arguments object is a string-valued map. -/
structure FunctionCall where
  name : String
  args : List (String × String)
  id : Option String
deriving DecidableEq, Repr

/-- `args.k`: `undefined` when the property is missing. -/
def lookupArg (args : List (String × String)) (k : String) : Option String :=
  (args.find? (fun a => a.1 = k)).map (fun a => a.2)

/-- The `apiResult` payload wrapped into a `functionResponse`: a stock
news list, a macro news list, or the `{ error: "Unknown function" }`
object. -/
inductive ToolPayload where
  | stockNews (items : List StockNewsItem)
  | macroNews (items : List MacroNewsItem)
  | errorObj (message : String)
deriving Repr

/-- A content `Part` (request or response side). -/
inductive PartU where
  | text (t : String)
  | inlineData (mimeType : String) (data : String)
  | functionCall (fc : FunctionCall)
  | functionResponse (name : String) (result : ToolPayload) (id : Option String)
deriving Repr

/-- The `part.functionCall` field. -/
def PartU.functionCallOf : PartU → Option FunctionCall
  | .functionCall fc => some fc
  | _ => none

/-- `chunk.web`. -/
structure WebRef where
  uri : String
  title : Option String
deriving DecidableEq, Repr

/-- A grounding chunk. -/
structure GroundingChunk where
  web : Option WebRef
deriving DecidableEq, Repr

/-- A response candidate; `parts` stands for `content?.parts` and
`groundingChunks` for `groundingMetadata?.groundingChunks` (the optional
intermediate wrappers are flattened into one `Option`). -/
structure Candidate where
  parts : Option (List PartU)
  groundingChunks : Option (List GroundingChunk)
deriving Repr

/-- A backend response: `candidates` and the SDK's `text` accessor. -/
structure GenResponse where
  candidates : Option (List Candidate)
  text : Option String
deriving Repr

/-- One element of `contents`. -/
structure ContentItem where
  role : GRole
  parts : List PartU
deriving Repr

/-- A `generateContent` request (model name, system instruction,
temperature and tool declarations are fixed constants in the source and
carry no information). -/
structure GenRequest where
  contents : List ContentItem
deriving Repr

/-- Outcome of one backend call. -/
inductive GemOutcome where
  | throw (message : String)
  | ok (response : GenResponse)

/-- Environment of `geminiService.ts`. -/
structure GeminiEnv where
  apiKey : String
  backend : Nat → GemOutcome
  newsEnv : NewsEnv
  fmpEnv : FmpEnv
  hostname : String → String

/-- The `{ text, sources }` result shape. -/
structure RespondResult where
  text : String
  sources : List GroundingSource
deriving DecidableEq, Repr

/-- Message of the `throw` when the Gemini key is unset. -/
def geminiKeyMissingMsg : String :=
  "API Key Gemini tidak dikonfigurasi. Silakan set EXPO_PUBLIC_GEMINI_API_KEY di .env"

/-- Fallback when the final response carries no text. -/
def noResponseMsg : String := "Maaf, saya tidak dapat menghasilkan respon saat ini."

/-- The four catch-block fallback strings. -/
def unknownErrorMsg : String := "Maaf, terjadi kesalahan saat menghubungkan ke layanan AI."

def configErrorMsg : String :=
  "API Key tidak valid atau belum dikonfigurasi. Silakan cek EXPO_PUBLIC_GEMINI_API_KEY di file .env"

def networkErrorMsg : String := "Gagal terhubung ke server. Periksa koneksi internet Anda."

def quotaErrorMsg : String := "Kuota API habis. Silakan coba lagi nanti atau upgrade plan API Anda."

/-- The catch-block category match on `error.message`. -/
def errorFallbackMessage (msg : String) : String :=
  if containsSub msg "API Key" then configErrorMsg
  else if containsSub msg "network" || containsSub msg "fetch" then networkErrorMsg
  else if containsSub msg "quota" then quotaErrorMsg
  else unknownErrorMsg

/-- Dispatch of one requested tool call (the body of the resolution
loop): `get_stock_news` and `get_macro_news` go to the gateway, anything
else yields `{ error: "Unknown function" }`. -/
def toolApiResult (env : GeminiEnv) (call : FunctionCall) : ToolPayload :=
  if call.name = "get_stock_news" then
    .stockNews (fetchStockNews env.fmpEnv (lookupArg call.args "ticker")).1
  else if call.name = "get_macro_news" then
    .macroNews (fetchMacroNews env.newsEnv (lookupArg call.args "query")).1
  else
    .errorObj "Unknown function"

/-- `candidates && candidates[0]?.content?.parts`. -/
def firstCandidateParts (r : GenResponse) : Option (List PartU) :=
  r.candidates.bind (fun cs => cs.head?.bind (fun c => c.parts))

/-- `response.candidates?.[0]?.groundingMetadata?.groundingChunks`. -/
def firstCandidateChunks (r : GenResponse) : Option (List GroundingChunk) :=
  r.candidates.bind (fun cs => cs.head?.bind (fun c => c.groundingChunks))

/-- Step 8 of the source: walk the grounding chunks (if the field is
present) and push `{uri, title || hostname(uri)}` for each web chunk. -/
def extractSources (hostname : String → String)
    (chunks : Option (List GroundingChunk)) : List GroundingSource :=
  match chunks with
  | none => []
  | some cs =>
    cs.foldl (fun acc c =>
      match c.web with
      | some w => acc ++ [{ uri := w.uri, title := jsOptStrOr w.title (hostname w.uri) }]
      | none => acc) []

/-- Steps 7–8: final text (`response.text || noResponseMsg`) and sources. -/
def finalizeResponse (hostname : String → String) (r : GenResponse) : RespondResult :=
  { text := jsOptStrOr r.text noResponseMsg,
    sources := extractSources hostname (firstCandidateChunks r) }

/-- Step 1: drop placeholder messages, map each to a role/text content
item (`assistant ↦ model`, anything else ↦ `user`). -/
def pastContentOf (history : List Message) : List ContentItem :=
  (history.filter (fun m => !(m.isPlaceholder.getD false))).map
    (fun m => { role := if m.role = .assistant then GRole.model else GRole.user,
                parts := [PartU.text m.content] })

/-- Steps 2–3: the text part followed by one `inlineData` part per
attachment, in order. -/
def currentPartsOf (currentMessage : String) (attachments : List Attachment) :
    List PartU :=
  PartU.text currentMessage :: attachments.map (fun a => PartU.inlineData a.mimeType a.data)

/-- The `functionResponses` array: one `functionResponse` per requested
call, correlated by name and id. -/
def functionResponsesOf (env : GeminiEnv) (calls : List FunctionCall) : List PartU :=
  calls.map (fun c => PartU.functionResponse c.name (toolApiResult env c) c.id)

/-- Step 4's request. -/
def initialRequest (history : List Message) (currentMessage : String)
    (attachments : List Attachment) : GenRequest :=
  ⟨pastContentOf history ++ [⟨.user, currentPartsOf currentMessage attachments⟩]⟩

/-- Step 6's request: context, the model's tool-call turn, and the tool
results. -/
def secondRequest (env : GeminiEnv) (history : List Message)
    (currentMessage : String) (attachments : List Attachment)
    (parts : List PartU) : GenRequest :=
  ⟨pastContentOf history ++
    [⟨.user, currentPartsOf currentMessage attachments⟩,
     ⟨.model, parts⟩,
     ⟨.user, functionResponsesOf env (parts.filterMap PartU.functionCallOf)⟩]⟩

/-- The `try` block of `generateFinancialAdvice`: `.error` is a thrown
exception reaching the `catch`. -/
def adviceCore (env : GeminiEnv) (history : List Message)
    (currentMessage : String) (attachments : List Attachment) :
    Except String RespondResult × List GenRequest :=
  if env.apiKey = "" then
    (.error geminiKeyMissingMsg, [])
  else
    let req1 := initialRequest history currentMessage attachments
    match env.backend 0 with
    | .throw msg => (.error msg, [req1])
    | .ok resp1 =>
      match firstCandidateParts resp1 with
      | some parts =>
        if (parts.filterMap PartU.functionCallOf).isEmpty then
          (.ok (finalizeResponse env.hostname resp1), [req1])
        else
          let req2 := secondRequest env history currentMessage attachments parts
          match env.backend 1 with
          | .throw msg => (.error msg, [req1, req2])
          | .ok resp2 => (.ok (finalizeResponse env.hostname resp2), [req1, req2])
      | none => (.ok (finalizeResponse env.hostname resp1), [req1])

/-- `generateFinancialAdvice`: the `try` body wrapped in the catch-all
that converts any exception into a successful-shaped fallback result. -/
def generateFinancialAdvice (env : GeminiEnv) (history : List Message)
    (currentMessage : String) (attachments : List Attachment) :
    RespondResult × List GenRequest :=
  match adviceCore env history currentMessage attachments with
  | (.ok r, reqs) => (r, reqs)
  | (.error msg, reqs) => ({ text := errorFallbackMessage msg, sources := [] }, reqs)

/-- Spec-side rendering of §4.4 step 1 (AssembleContext), written from
the specification's words: drop every message whose placeholder flag is
set, map `assistant` to `model` and every other role to `user`, then
append the new user turn with the text part first and one inline-data
part per attachment in order. -/
def assembleContextSpec (history : List Message) (newText : String)
    (attachments : List Attachment) : List ContentItem :=
  (history.filter (fun m => m.isPlaceholder ≠ some true)).map
    (fun m => ⟨if m.role = .assistant then .model else .user, [.text m.content]⟩)
  ++ [⟨.user, .text newText :: attachments.map (fun a => .inlineData a.mimeType a.data)⟩]

/-! ## Session Store — local backend (`storageService.ts`)

AsyncStorage keeps one serialized list of full sessions; the store state
is that list. -/

/-- `storageService.saveChatSession`: replace the first session with the
same id, else push at the end. -/
def saveChatSessionLocal (sessions : List ChatSession) (session : ChatSession) :
    List ChatSession :=
  match sessions.findIdx? (fun s => s.id = session.id) with
  | some i => sessions.set i session
  | none => sessions ++ [session]

/-- `storageService.getChatSession`: first session with the id, else
`null`. -/
def getChatSessionLocal (sessions : List ChatSession) (sessionId : String) :
    Option ChatSession :=
  sessions.find? (fun s => s.id = sessionId)

/-! ## Session Store — remote backend (`firestoreService.ts`)

The remote state is the set of per-user chat documents; clocks and the
authenticated user come from the environment.  The document content is
given in two equivalent renderings: a typed one (what `getChatSession`
hands back) and a `JsVal` one (the exact value handed to `setDoc`, used
for the sanitization property). -/

/-- Environment: `authService.getCurrentUser()?.uid`, the server clock
behind `serverTimestamp()` (in millis), and the client clock behind
`Date.now()`. -/
structure RemoteEnv where
  user : Option String
  serverNow : Int
  clientNow : Int

/-- A stored chat document (typed rendering; `updatedAt` is the resolved
server timestamp). -/
structure StoredDoc where
  title : String
  messages : List Message
  attachments : List FileAttachment
  createdAt : Int
  updatedAt : Int
deriving DecidableEq, Repr

/-- One document of the remote store, keyed by user id and session id. -/
structure RemoteDoc where
  uid : String
  sessionId : String
  doc : StoredDoc
deriving DecidableEq, Repr

/-- Typed rendering of the attachment cleaning inside `cleanMessage` and
`saveChatSession`: keep `{id, name, type, size, mimeType, uri || ''}`,
drop the base64 `content`. -/
def cleanAttachmentT (att : FileAttachment) : FileAttachment :=
  { id := att.id, name := att.name, type := att.type, size := att.size,
    uri := jsStrOr att.uri "", content := none, mimeType := att.mimeType }

/-- Typed rendering of the source cleaning: `{uri || '', title || ''}`. -/
def cleanSourceT (src : GroundingSource) : GroundingSource :=
  { uri := jsStrOr src.uri "", title := jsStrOr src.title "" }

/-- Typed rendering of `cleanMessage`: keeps id/content/role/timestamp,
normalizes absent attachment and source lists to `[]`, strips attachment
content, and drops the `isPlaceholder` flag (not among the written
fields). -/
def cleanMessageT (msg : Message) : Message :=
  { id := msg.id, content := msg.content, role := msg.role,
    timestamp := msg.timestamp,
    attachments := some ((msg.attachments.getD []).map cleanAttachmentT),
    sources := some ((msg.sources.getD []).map cleanSourceT),
    isPlaceholder := none }

/-- `setDoc(..., {merge: true})`: all five fields are written, so the
document under the key ends up equal to the new body (modelled as
replace-or-append over the keyed list). -/
def upsertDoc (store : List RemoteDoc) (uid sessionId : String) (d : StoredDoc) :
    List RemoteDoc :=
  if store.any (fun e => e.uid = uid && e.sessionId = sessionId) then
    store.map (fun e =>
      if e.uid = uid && e.sessionId = sessionId then ⟨uid, sessionId, d⟩ else e)
  else
    store ++ [⟨uid, sessionId, d⟩]

/-- `firestoreService.saveChatSession`; throws (rethrown by the catch)
when no user is authenticated. -/
def saveChatSessionRemote (env : RemoteEnv) (store : List RemoteDoc)
    (session : ChatSession) : Except String (List RemoteDoc) :=
  match env.user with
  | none => .error "User not authenticated"
  | some uid =>
    .ok (upsertDoc store uid session.id
      { title := jsStrOr session.title "Chat Baru",
        messages := session.messages.map cleanMessageT,
        attachments := session.attachments.map cleanAttachmentT,
        createdAt := jsIntOr session.createdAt env.clientNow,
        updatedAt := env.serverNow })

/-- `firestoreService.getChatSession`; any throw (e.g. unauthenticated)
is caught and becomes `null`.  The stored numbers go through the
`x?.toMillis?.() || x || Date.now()` chain, i.e. `0` falls back to the
client clock. -/
def getChatSessionRemote (env : RemoteEnv) (store : List RemoteDoc)
    (sessionId : String) : Option ChatSession :=
  match env.user with
  | none => none
  | some uid =>
    match store.find? (fun e => e.uid = uid && e.sessionId = sessionId) with
    | none => none
    | some e =>
      some { id := e.sessionId, title := e.doc.title,
             messages := e.doc.messages, attachments := e.doc.attachments,
             createdAt := jsIntOr e.doc.createdAt env.clientNow,
             updatedAt := jsIntOr e.doc.updatedAt env.clientNow }

/-! ### `removeUndefined` over dynamic values (`firestoreService.ts`)

`removeUndefined` copies an object's enumerable fields into a fresh
plain object, skipping `undefined`-valued fields, recursing into object
fields and into object elements of array fields.  When it is handed an
array (possible for a nested array inside an array field), `for..in`
enumerates the indices, so the result is a plain object keyed by the
index strings — `rmIndexed` renders that branch. -/

mutual

def rmFields : List (String × JsVal) → List (String × JsVal)
  | [] => []
  | (_, .jsUndefined) :: rest => rmFields rest
  | (k, .arr xs) :: rest => (k, .arr (rmElems xs)) :: rmFields rest
  | (k, .obj fs) :: rest => (k, .obj (rmFields fs)) :: rmFields rest
  | (k, v) :: rest => (k, v) :: rmFields rest

def rmElems : List JsVal → List JsVal
  | [] => []
  | .obj fs :: rest => .obj (rmFields fs) :: rmElems rest
  | .arr xs :: rest => .obj (rmIndexed 0 xs) :: rmElems rest
  | v :: rest => v :: rmElems rest

def rmIndexed : Nat → List JsVal → List (String × JsVal)
  | _, [] => []
  | i, .jsUndefined :: rest => rmIndexed (i + 1) rest
  | i, .arr xs :: rest => (toString i, .arr (rmElems xs)) :: rmIndexed (i + 1) rest
  | i, .obj fs :: rest => (toString i, .obj (rmFields fs)) :: rmIndexed (i + 1) rest
  | i, v :: rest => (toString i, v) :: rmIndexed (i + 1) rest

end

/-- `removeUndefined` itself: always returns a fresh plain object built
from the input's enumerable fields. -/
def removeUndefined (v : JsVal) : JsVal :=
  match v with
  | .obj fs => .obj (rmFields fs)
  | .arr xs => .obj (rmIndexed 0 xs)
  | _ => .obj []

/-! ### `undefined`-freedom predicates -/

mutual

/-- No `undefined` occurs anywhere in the value. -/
def undefFree : JsVal → Bool
  | .jsUndefined => false
  | .arr xs => undefFreeElems xs
  | .obj fs => undefFreeFields fs
  | _ => true

def undefFreeElems : List JsVal → Bool
  | [] => true
  | v :: rest => undefFree v && undefFreeElems rest

def undefFreeFields : List (String × JsVal) → Bool
  | [] => true
  | (_, v) :: rest => undefFree v && undefFreeFields rest

end

mutual

/-- No object **field** at any depth (inside nested objects and inside
array elements) holds `undefined`; a bare `undefined` array element is
not a field. -/
def cleanVal : JsVal → Bool
  | .arr xs => cleanElems xs
  | .obj fs => cleanFields fs
  | _ => true

def cleanElems : List JsVal → Bool
  | [] => true
  | v :: rest => cleanVal v && cleanElems rest

def cleanFields : List (String × JsVal) → Bool
  | [] => true
  | (_, .jsUndefined) :: _ => false
  | (_, v) :: rest => cleanVal v && cleanFields rest

end

/-! ### The value actually handed to `setDoc` by `saveChatSession` -/

/-- The fields of the attachment object literal built inside
`cleanMessage` / `saveChatSession` (the base64 `content` is deliberately
not included). -/
def attachmentFieldsJs (att : FileAttachment) : List (String × JsVal) :=
  [("id", .str att.id), ("name", .str att.name),
   ("type", .str att.type.toStr), ("size", .num att.size),
   ("mimeType", .str att.mimeType), ("uri", .str (jsStrOr att.uri ""))]

/-- The attachment object literal. -/
def attachmentLiteral (att : FileAttachment) : JsVal := .obj (attachmentFieldsJs att)

/-- `removeUndefined({id: att.id, ...})` per attachment. -/
def cleanAttachmentJs (att : FileAttachment) : JsVal :=
  removeUndefined (attachmentLiteral att)

/-- The source object literal built inside `cleanMessage`. -/
def sourceLiteral (src : GroundingSource) : JsVal :=
  .obj [("uri", .str (jsStrOr src.uri "")), ("title", .str (jsStrOr src.title ""))]

/-- The fields of the message literal handed to `removeUndefined` by
`cleanMessage`. -/
def messageFieldsJs (msg : Message) : List (String × JsVal) :=
  [("id", .str msg.id), ("content", .str msg.content),
   ("role", .str msg.role.toStr), ("timestamp", .num msg.timestamp),
   ("attachments", .arr (List.map cleanAttachmentJs (msg.attachments.getD []))),
   ("sources", .arr (List.map sourceLiteral (msg.sources.getD [])))]

/-- `cleanMessage` as the `JsVal` it produces. -/
def cleanMessageJs (msg : Message) : JsVal :=
  removeUndefined (.obj (messageFieldsJs msg))

/-- The opaque `serverTimestamp()` sentinel object. -/
def serverTimestampSentinel : JsVal := .obj [("_methodName", .str "serverTimestamp")]

/-- The exact object passed to `setDoc` by `saveChatSession`. -/
def savePayloadJs (env : RemoteEnv) (session : ChatSession) : JsVal :=
  .obj
    [("title", .str (jsStrOr session.title "Chat Baru")),
     ("messages", .arr (List.map cleanMessageJs session.messages)),
     ("attachments", .arr (List.map cleanAttachmentJs session.attachments)),
     ("createdAt", .num (jsIntOr session.createdAt env.clientNow)),
     ("updatedAt", serverTimestampSentinel)]

/-! ### Concrete fixtures used by witnesses -/

/-- Remote-store environment with an authenticated user. -/
def remoteEnvFixture : RemoteEnv := { user := some "user-1", serverNow := 500, clientNow := 700 }

/-- A session holding one message with one content-bearing attachment. -/
def sessRoundtripFixture : ChatSession :=
  { id := "s1", title := "Analisis BBCA",
    messages :=
      [{ id := "m1", content := "Ini laporannya.", role := .user, timestamp := 10,
         attachments := some
           [{ id := "f1", name := "lap.pdf", type := .pdf, size := 4,
              uri := "file:///lap.pdf", content := some "QUJD",
              mimeType := "application/pdf" }],
         sources := none, isPlaceholder := none }],
    createdAt := 10, updatedAt := 10, attachments := [] }

/-- A gateway environment with the placeholder key and a dead network. -/
def fmpEnvDemo : FmpEnv :=
  { apikey := "demo", urlEncode := id, nowISO := "2025-11-30T00:00:00Z",
    fetch := fun _ => .thrown }

/-- A NewsAPI environment with the placeholder key. -/
def newsEnvDemo : NewsEnv := { apikey := "demo", urlEncode := id, fetch := fun _ => .thrown }

/-- A first-reply tool call requesting stock news for BBCA. -/
def toolCallFixture : FunctionCall :=
  { name := "get_stock_news", args := [("ticker", "BBCA")], id := some "call-1" }

def toolPartsFixture : List PartU := [.functionCall toolCallFixture]

/-- A first reply consisting of the single tool-call part. -/
def respToolsFixture : GenResponse :=
  { candidates := some [{ parts := some toolPartsFixture, groundingChunks := none }],
    text := none }

/-- A final reply with text and two web grounding chunks (one without a
title). -/
def respFinalFixture : GenResponse :=
  { candidates := some
      [{ parts := some [.text "Berikut analisisnya."],
         groundingChunks := some
           [{ web := some { uri := "https://a.example/x", title := none } },
            { web := none },
            { web := some { uri := "https://b.example/y", title := some "Situs B" } }] }],
    text := some "Berikut analisisnya." }

/-- Orchestrator environment whose first call requests a tool and whose
second call answers. -/
def envToolsFixture : GeminiEnv :=
  { apiKey := "key-123",
    backend := fun n => if n = 0 then .ok respToolsFixture else .ok respFinalFixture,
    newsEnv := newsEnvDemo, fmpEnv := fmpEnvDemo,
    hostname := fun _ => "a.example" }

/-- A first reply requesting an unregistered tool. -/
def unknownToolParts : List PartU :=
  [.functionCall { name := "lookup_dividends", args := [], id := none }]

def respUnknownToolFixture : GenResponse :=
  { candidates := some [{ parts := some unknownToolParts, groundingChunks := none }],
    text := none }

/-- Orchestrator environment whose first reply asks for the unregistered
tool and whose second call answers. -/
def envUnknownToolFixture : GeminiEnv :=
  { apiKey := "key-123",
    backend := fun n => if n = 0 then .ok respUnknownToolFixture else .ok respFinalFixture,
    newsEnv := newsEnvDemo, fmpEnv := fmpEnvDemo,
    hostname := fun _ => "a.example" }

/-- A direct reply (no tool calls, no parts) with grounding chunks. -/
def respDirectFixture : GenResponse :=
  { candidates := some
      [{ parts := none,
         groundingChunks := some
           [{ web := some { uri := "https://a.example/x", title := none } },
            { web := none },
            { web := some { uri := "https://b.example/y", title := some "Situs B" } }] }],
    text := some "Tentu." }

/-- Orchestrator environment answering directly. -/
def envDirectFixture : GeminiEnv :=
  { apiKey := "key-123",
    backend := fun _ => .ok respDirectFixture,
    newsEnv := newsEnvDemo, fmpEnv := fmpEnvDemo,
    hostname := fun _ => "a.example" }

/-- Orchestrator environment without a Gemini key. -/
def envNoKeyFixture : GeminiEnv :=
  { apiKey := "",
    backend := fun _ => .throw "unused",
    newsEnv := newsEnvDemo, fmpEnv := fmpEnvDemo,
    hostname := fun _ => "a.example" }

end StockPocket

namespace StockPocket

/-- Claim C7: a pdf exactly at the 10 MB limit with non-empty content passes;
one byte over fails with the `TooLarge` error; empty content (within the
size limit) fails with the `Empty` error; and the pdf allowance strictly
exceeds the 5 MB allowance of every other category. -/
theorem validateFile_boundary_behavior (f : FileAttachment) :
    (f.type = .pdf → f.size = 10 * 1024 * 1024 →
      (∃ c, f.content = some c ∧ c.length ≠ 0) →
      validateFile f = { valid := true, error := none }) ∧
    (f.size = maxFileSize f.type + 1 →
      validateFile f = { valid := false, error := some (tooLargeMsg f.type) }) ∧
    (f.size ≤ maxFileSize f.type → (f.content = none ∨ f.content = some "") →
      validateFile f = { valid := false, error := some emptyFileMsg }) ∧
    (maxFileSize .pdf = 10 * 1024 * 1024 ∧
      ∀ t : FileType, t ≠ .pdf → maxFileSize t = 5 * 1024 * 1024 ∧
        maxFileSize t < maxFileSize .pdf) := by
  refine ⟨?_, ?_, ?_, ?_, ?_⟩
  · intro htyp hsize ⟨c, hc, hne⟩
    simp [validateFile, htyp, hsize, maxFileSize, hc, hne]
  · intro hsize
    simp [validateFile, hsize]
  · intro hsize hcontent
    have hnot : ¬ f.size > maxFileSize f.type := by omega
    rcases hcontent with h | h <;> simp [validateFile, hnot, h]
  · rfl
  · intro t ht
    cases t <;> simp_all [maxFileSize]

/-- Witness for C7 at a concrete pdf attachment of exactly 10 MB. -/
theorem validateFile_boundary_behavior_witness :
    validateFile
      { id := "f1", name := "report.pdf", type := .pdf, size := 10 * 1024 * 1024,
        uri := "file:///tmp/report.pdf", content := some "JVBERi0xLjQ=",
        mimeType := "application/pdf" } = { valid := true, error := none } :=
  (validateFile_boundary_behavior _).1 rfl rfl ⟨"JVBERi0xLjQ=", rfl, by decide⟩

/-- Claim C4: every gateway function, when its configured API key is absent
(resolving to the empty string or the `"demo"` placeholder default),
returns its empty/null result with an empty list of fetched URLs — no
network call at all. -/
theorem gateway_missing_key_zero_network_calls
    (fe : FmpEnv) (ne : NewsEnv) (se : FmpSvcEnv)
    (hf : fe.apikey = "" ∨ fe.apikey = "demo")
    (hn : ne.apikey = "" ∨ ne.apikey = "demo")
    (hs : se.apikey = "" ∨ se.apikey = "demo") :
    (∀ t, fetchStockNews fe t = ([], [])) ∧
    (∀ q, fetchMacroNews ne q = ([], [])) ∧
    (∀ s, fetchStockQuote fe s = (none, [])) ∧
    (∀ s, fetchCompanyProfile fe s = (none, [])) ∧
    (∀ s p l, fetchIncomeStatement fe s p l = ([], [])) ∧
    (∀ s, fetchKeyMetrics fe s = (none, [])) ∧
    (∀ q, searchStocks fe q = ([], [])) ∧
    (fetchMarketGainers fe = ([], [])) ∧
    (fetchMarketLosers fe = ([], [])) ∧
    (∀ s, getQuote se s = (.null, [])) ∧
    (∀ s, getCompanyProfile se s = (.null, [])) ∧
    (∀ s p l, getIncomeStatement se s p l = ([], [])) ∧
    (∀ s p l, getBalanceSheet se s p l = ([], [])) ∧
    (∀ s p l, getCashFlowStatement se s p l = ([], [])) ∧
    (∀ s p l, getKeyMetrics se s p l = ([], [])) ∧
    (getBiggestGainers se = ([], [])) ∧
    (getBiggestLosers se = ([], [])) ∧
    (∀ q l, searchSymbol se q l = ([], [])) := by
  have hchk : checkApiKey fe.apikey = false := by
    rcases hf with h | h <;> rw [h] <;> decide
  have hfen : isFmpEnabled se.apikey = false := by
    rcases hs with h | h <;> rw [h] <;> decide
  have hng : (decide (ne.apikey = "") || decide (ne.apikey = "demo")) = true := by
    rcases hn with h | h <;> simp [h]
  refine ⟨fun _ => rfl,
    fun q => by simp [fetchMacroNews, fetchMacroNewsFromNewsAPI, hng],
    fun s => by simp [fetchStockQuote, hchk],
    fun s => by simp [fetchCompanyProfile, hchk],
    fun s p l => by simp [fetchIncomeStatement, hchk],
    fun s => by simp [fetchKeyMetrics, hchk],
    fun q => by simp [searchStocks, hchk],
    by simp [fetchMarketGainers, hchk],
    by simp [fetchMarketLosers, hchk],
    fun s => by simp [getQuote, hfen],
    fun s => by simp [getCompanyProfile, hfen],
    fun s p l => by simp [getIncomeStatement, hfen],
    fun s p l => by simp [getBalanceSheet, hfen],
    fun s p l => by simp [getCashFlowStatement, hfen],
    fun s p l => by simp [getKeyMetrics, hfen],
    by simp [getBiggestGainers, hfen],
    by simp [getBiggestLosers, hfen],
    fun q l => by simp [searchSymbol, hfen]⟩

/-- Witness for C4 with the `"demo"` placeholder key, an absent
`fmpService` key, and a network that would fail if contacted. -/
theorem gateway_missing_key_zero_network_calls_witness :
    fetchStockQuote
      { apikey := "demo", urlEncode := id, nowISO := "2025-11-30T00:00:00Z",
        fetch := fun _ => .thrown } "BBCA" = (none, []) ∧
    fetchMacroNews
      { apikey := "demo", urlEncode := id, fetch := fun _ => .thrown }
      (some "inflasi indonesia") = ([], []) ∧
    getQuote
      { apikey := "", urlEncode := id, fetch := fun _ => .thrown } "AAPL" = (.null, []) ∧
    getBalanceSheet
      { apikey := "", urlEncode := id, fetch := fun _ => .thrown }
      "AAPL" "annual" 5 = ([], []) := by
  have h := gateway_missing_key_zero_network_calls
    { apikey := "demo", urlEncode := id, nowISO := "2025-11-30T00:00:00Z",
      fetch := fun _ => .thrown }
    { apikey := "demo", urlEncode := id, fetch := fun _ => .thrown }
    { apikey := "", urlEncode := id, fetch := fun _ => .thrown }
    (Or.inr rfl) (Or.inr rfl) (Or.inl rfl)
  exact ⟨h.2.2.1 "BBCA", h.2.1 (some "inflasi indonesia"),
    h.2.2.2.2.2.2.2.2.2.1 "AAPL", h.2.2.2.2.2.2.2.2.2.2.2.2.1 "AAPL" "annual" 5⟩

/-! ### Orchestrator unfolding lemmas (shared) -/

theorem generateFinancialAdvice_trace (env : GeminiEnv) (h : List Message)
    (m : String) (a : List Attachment) :
    (generateFinancialAdvice env h m a).2 = (adviceCore env h m a).2 := by
  unfold generateFinancialAdvice
  cases hc : adviceCore env h m a with
  | mk r reqs => cases r <;> simp [hc]

theorem adviceCore_key_missing (env : GeminiEnv) (h : List Message) (m : String)
    (a : List Attachment) (hkey : env.apiKey = "") :
    adviceCore env h m a = (.error geminiKeyMissingMsg, []) := by
  unfold adviceCore
  rw [if_pos hkey]

theorem adviceCore_throw_first (env : GeminiEnv) (h : List Message) (m : String)
    (a : List Attachment) (msg : String) (hkey : env.apiKey ≠ "")
    (hb : env.backend 0 = .throw msg) :
    adviceCore env h m a = (.error msg, [initialRequest h m a]) := by
  unfold adviceCore
  rw [if_neg hkey, hb]

theorem adviceCore_direct (env : GeminiEnv) (h : List Message) (m : String)
    (a : List Attachment) (resp1 : GenResponse) (hkey : env.apiKey ≠ "")
    (hb : env.backend 0 = .ok resp1)
    (hnc : ∀ parts, firstCandidateParts resp1 = some parts →
      parts.filterMap PartU.functionCallOf = []) :
    adviceCore env h m a =
      (.ok (finalizeResponse env.hostname resp1), [initialRequest h m a]) := by
  have h1 : adviceCore env h m a =
      (match firstCandidateParts resp1 with
       | some parts =>
         if (parts.filterMap PartU.functionCallOf).isEmpty then
           (.ok (finalizeResponse env.hostname resp1), [initialRequest h m a])
         else
           match env.backend 1 with
           | .throw msg =>
             (.error msg, [initialRequest h m a, secondRequest env h m a parts])
           | .ok resp2 =>
             (.ok (finalizeResponse env.hostname resp2),
              [initialRequest h m a, secondRequest env h m a parts])
       | none => (.ok (finalizeResponse env.hostname resp1), [initialRequest h m a])) := by
    unfold adviceCore
    rw [if_neg hkey, hb]
  rw [h1]
  cases hp : firstCandidateParts resp1 with
  | none => rfl
  | some parts =>
    have hemp := hnc parts hp
    simp [hemp]

theorem adviceCore_tools (env : GeminiEnv) (h : List Message) (m : String)
    (a : List Attachment) (resp1 : GenResponse) (parts : List PartU)
    (hkey : env.apiKey ≠ "") (hb : env.backend 0 = .ok resp1)
    (hp : firstCandidateParts resp1 = some parts)
    (hne : parts.filterMap PartU.functionCallOf ≠ []) :
    adviceCore env h m a =
      (match env.backend 1 with
       | .throw msg =>
         (.error msg, [initialRequest h m a, secondRequest env h m a parts])
       | .ok resp2 =>
         (.ok (finalizeResponse env.hostname resp2),
          [initialRequest h m a, secondRequest env h m a parts])) := by
  have h1 : adviceCore env h m a =
      (match firstCandidateParts resp1 with
       | some parts =>
         if (parts.filterMap PartU.functionCallOf).isEmpty then
           (.ok (finalizeResponse env.hostname resp1), [initialRequest h m a])
         else
           match env.backend 1 with
           | .throw msg =>
             (.error msg, [initialRequest h m a, secondRequest env h m a parts])
           | .ok resp2 =>
             (.ok (finalizeResponse env.hostname resp2),
              [initialRequest h m a, secondRequest env h m a parts])
       | none => (.ok (finalizeResponse env.hostname resp1), [initialRequest h m a])) := by
    unfold adviceCore
    rw [if_neg hkey, hb]
  have hni : (parts.filterMap PartU.functionCallOf).isEmpty = false := by
    cases hq : parts.filterMap PartU.functionCallOf with
    | nil => exact absurd hq hne
    | cons x xs => rfl
  rw [h1, hp]
  simp [hni]

/-- The dropped-placeholder filter of the source agrees with the
spec-side "placeholder flag is set" filter. -/
theorem placeholder_filter_eq (l : List Message) :
    l.filter (fun msg => !(msg.isPlaceholder.getD false)) =
      l.filter (fun msg => msg.isPlaceholder ≠ some true) := by
  induction l with
  | nil => rfl
  | cons x xs ih =>
    have hx : (!(x.isPlaceholder.getD false)) = decide (x.isPlaceholder ≠ some true) := by
      cases hxp : x.isPlaceholder with
      | none => rfl
      | some b => cases b <;> rfl
    simp only [List.filter_cons, hx, ih]

/-- The citation-extraction loop as a `filterMap`. -/
theorem extractSources_foldl (hn : String → String) (cs : List GroundingChunk)
    (acc : List GroundingSource) :
    cs.foldl (fun acc c =>
      match c.web with
      | some w => acc ++ [{ uri := w.uri, title := jsOptStrOr w.title (hn w.uri) }]
      | none => acc) acc =
    acc ++ cs.filterMap (fun c => c.web.map (fun w =>
      { uri := w.uri, title := jsOptStrOr w.title (hn w.uri) })) := by
  induction cs generalizing acc with
  | nil => simp
  | cons c cs ih =>
    cases hw : c.web with
    | none => simp [List.foldl_cons, List.filterMap_cons, hw, ih]
    | some w => simp [List.foldl_cons, List.filterMap_cons, hw, ih]

/-! ### Orchestrator claims -/

/-- Claim C2: at most two backend calls ever happen in one invocation; when the
first reply requests tool calls, exactly one resolution round runs, its
results ride along in the second request, and the second reply is final —
even if it contains further tool-call requests, no third call occurs. -/
theorem tool_loop_single_round (env : GeminiEnv) (h : List Message) (m : String)
    (a : List Attachment) :
    ((generateFinancialAdvice env h m a).2).length ≤ 2 ∧
    (∀ resp1 parts, env.apiKey ≠ "" → env.backend 0 = .ok resp1 →
      firstCandidateParts resp1 = some parts →
      parts.filterMap PartU.functionCallOf ≠ [] →
      (generateFinancialAdvice env h m a).2 =
        [initialRequest h m a, secondRequest env h m a parts] ∧
      (∀ resp2, env.backend 1 = .ok resp2 →
        (generateFinancialAdvice env h m a).1 = finalizeResponse env.hostname resp2)) := by
  constructor
  · rw [generateFinancialAdvice_trace]
    by_cases hkey : env.apiKey = ""
    · rw [adviceCore_key_missing env h m a hkey]; simp
    · cases hb : env.backend 0 with
      | throw msg =>
        rw [adviceCore_throw_first env h m a msg hkey hb]; simp
      | ok resp1 =>
        cases hp : firstCandidateParts resp1 with
        | none =>
          rw [adviceCore_direct env h m a resp1 hkey hb
            (fun ps hp2 => by rw [hp] at hp2; cases hp2)]
          simp
        | some parts =>
          by_cases hne : parts.filterMap PartU.functionCallOf = []
          · rw [adviceCore_direct env h m a resp1 hkey hb
              (fun ps hp2 => by
                rw [hp] at hp2
                injection hp2 with hq
                exact hq ▸ hne)]
            simp
          · rw [adviceCore_tools env h m a resp1 parts hkey hb hp hne]
            cases env.backend 1 <;> simp
  · intro resp1 parts hkey hb hp hne
    have hAdv := adviceCore_tools env h m a resp1 parts hkey hb hp hne
    constructor
    · rw [generateFinancialAdvice_trace, hAdv]
      cases env.backend 1 <;> rfl
    · intro resp2 hb1
      rw [hb1] at hAdv
      simp [generateFinancialAdvice, hAdv]

/-- Witness for C2: a turn whose first reply requests `get_stock_news`
issues exactly the two requests and takes the second reply as final. -/
theorem tool_loop_single_round_witness :
    (generateFinancialAdvice envToolsFixture [] "Analisis BBCA" []).2 =
      [initialRequest [] "Analisis BBCA" [],
       secondRequest envToolsFixture [] "Analisis BBCA" [] toolPartsFixture] ∧
    (generateFinancialAdvice envToolsFixture [] "Analisis BBCA" []).1 =
      finalizeResponse envToolsFixture.hostname respFinalFixture := by
  have h2 := (tool_loop_single_round envToolsFixture [] "Analisis BBCA" []).2
    respToolsFixture toolPartsFixture (by decide) rfl rfl (by decide)
  exact ⟨h2.1, h2.2 respFinalFixture rfl⟩

/-- Claim C1: `generateFinancialAdvice` is total (a pure function here) and
every failure path — missing key, a throw from either backend call —
lands in the catch-all, which returns a `{text, sources}` object with
empty sources and a message chosen by matching the error text against the
configuration / network / quota / unknown categories. -/
theorem respond_never_throws_fallback (env : GeminiEnv) (h : List Message)
    (m : String) (a : List Attachment) :
    (env.apiKey = "" →
      generateFinancialAdvice env h m a =
        ({ text := configErrorMsg, sources := [] }, [])) ∧
    (∀ msg, env.apiKey ≠ "" → env.backend 0 = .throw msg →
      generateFinancialAdvice env h m a =
        ({ text := errorFallbackMessage msg, sources := [] }, [initialRequest h m a])) ∧
    (∀ msg resp1 parts, env.apiKey ≠ "" → env.backend 0 = .ok resp1 →
      firstCandidateParts resp1 = some parts →
      parts.filterMap PartU.functionCallOf ≠ [] →
      env.backend 1 = .throw msg →
      (generateFinancialAdvice env h m a).1 =
        { text := errorFallbackMessage msg, sources := [] }) ∧
    (∀ msg, containsSub msg "API Key" = true →
      errorFallbackMessage msg = configErrorMsg) ∧
    (∀ msg, containsSub msg "API Key" = false →
      (containsSub msg "network" = true ∨ containsSub msg "fetch" = true) →
      errorFallbackMessage msg = networkErrorMsg) ∧
    (∀ msg, containsSub msg "API Key" = false → containsSub msg "network" = false →
      containsSub msg "fetch" = false → containsSub msg "quota" = true →
      errorFallbackMessage msg = quotaErrorMsg) ∧
    (∀ msg, containsSub msg "API Key" = false → containsSub msg "network" = false →
      containsSub msg "fetch" = false → containsSub msg "quota" = false →
      errorFallbackMessage msg = unknownErrorMsg) := by
  refine ⟨?_, ?_, ?_, ?_, ?_, ?_, ?_⟩
  · intro hkey
    have hc : containsSub geminiKeyMissingMsg "API Key" = true := by decide
    simp [generateFinancialAdvice, adviceCore_key_missing env h m a hkey,
      errorFallbackMessage, hc]
  · intro msg hkey hb
    simp [generateFinancialAdvice, adviceCore_throw_first env h m a msg hkey hb]
  · intro msg resp1 parts hkey hb hp hne hb1
    have hAdv := adviceCore_tools env h m a resp1 parts hkey hb hp hne
    rw [hb1] at hAdv
    simp [generateFinancialAdvice, hAdv]
  · intro msg hc
    simp [errorFallbackMessage, hc]
  · intro msg hc hnf
    rcases hnf with hh | hh <;> simp [errorFallbackMessage, hc, hh]
  · intro msg hc hn hf hq
    simp [errorFallbackMessage, hc, hn, hf, hq]
  · intro msg hc hn hf hq
    simp [errorFallbackMessage, hc, hn, hf, hq]

/-- Witness for C1: with no key configured the result is the fixed
configuration apology with no sources and no backend call, and a
quota-flavoured error message maps to the quota apology. -/
theorem respond_never_throws_fallback_witness :
    generateFinancialAdvice envNoKeyFixture [] "halo" [] =
      ({ text := configErrorMsg, sources := [] }, []) ∧
    errorFallbackMessage "You exceeded your current quota" = quotaErrorMsg := by
  refine ⟨(respond_never_throws_fallback envNoKeyFixture [] "halo" []).1 rfl, ?_⟩
  exact (respond_never_throws_fallback envNoKeyFixture [] "halo" []).2.2.2.2.2.1
    "You exceeded your current quota" (by decide) (by decide) (by decide) (by decide)

/-- Claim C3: a requested tool call with an unregistered name resolves to the
`{ error: "Unknown function" }` payload without throwing, that payload is
still sent back to the backend inside the second request, and the turn
completes with the second reply's text. -/
theorem unknown_tool_contained (env : GeminiEnv) (h : List Message) (m : String)
    (a : List Attachment) :
    (∀ call : FunctionCall, call.name ≠ "get_stock_news" →
      call.name ≠ "get_macro_news" →
      toolApiResult env call = .errorObj "Unknown function") ∧
    (∀ resp1 parts call, env.apiKey ≠ "" → env.backend 0 = .ok resp1 →
      firstCandidateParts resp1 = some parts →
      PartU.functionCall call ∈ parts →
      call.name ≠ "get_stock_news" → call.name ≠ "get_macro_news" →
      PartU.functionResponse call.name (.errorObj "Unknown function") call.id ∈
        functionResponsesOf env (parts.filterMap PartU.functionCallOf) ∧
      (generateFinancialAdvice env h m a).2 =
        [initialRequest h m a, secondRequest env h m a parts] ∧
      (∀ resp2, env.backend 1 = .ok resp2 →
        (generateFinancialAdvice env h m a).1.text = jsOptStrOr resp2.text noResponseMsg)) := by
  constructor
  · intro call h1 h2
    simp [toolApiResult, h1, h2]
  · intro resp1 parts call hkey hb hp hmem h1 h2
    have hcall : call ∈ parts.filterMap PartU.functionCallOf :=
      List.mem_filterMap.mpr ⟨.functionCall call, hmem, rfl⟩
    have hne : parts.filterMap PartU.functionCallOf ≠ [] :=
      List.ne_nil_of_mem hcall
    have hAdv := adviceCore_tools env h m a resp1 parts hkey hb hp hne
    refine ⟨?_, ?_, ?_⟩
    · have hres : toolApiResult env call = .errorObj "Unknown function" := by
        simp [toolApiResult, h1, h2]
      exact List.mem_map.mpr ⟨call, hcall, by rw [hres]⟩
    · rw [generateFinancialAdvice_trace, hAdv]
      cases env.backend 1 <;> rfl
    · intro resp2 hb1
      rw [hb1] at hAdv
      simp [generateFinancialAdvice, hAdv, finalizeResponse]

/-- Witness for C3: a turn whose first reply asks for an unregistered
tool still completes and carries the error payload in request two. -/
theorem unknown_tool_contained_witness :
    PartU.functionResponse "lookup_dividends" (.errorObj "Unknown function") none ∈
      functionResponsesOf envUnknownToolFixture
        (unknownToolParts.filterMap PartU.functionCallOf) ∧
    (generateFinancialAdvice envUnknownToolFixture [] "Dividen BBCA?" []).2 =
      [initialRequest [] "Dividen BBCA?" [],
       secondRequest envUnknownToolFixture [] "Dividen BBCA?" [] unknownToolParts] ∧
    (generateFinancialAdvice envUnknownToolFixture [] "Dividen BBCA?" []).1.text =
      "Berikut analisisnya." := by
  have h2 := (unknown_tool_contained envUnknownToolFixture [] "Dividen BBCA?" []).2
    respUnknownToolFixture unknownToolParts
    { name := "lookup_dividends", args := [], id := none }
    (by decide) rfl rfl (by simp [unknownToolParts]) (by decide) (by decide)
  exact ⟨h2.1, h2.2.1, (h2.2.2 respFinalFixture rfl).trans rfl⟩

/-- Claim C8: the first backend request is exactly the assembled context of the
specification: placeholder messages dropped, roles mapped
(`assistant ↦ model`, otherwise `user`), then the new user turn with the
text part followed by one inline-data part per attachment in order. -/
theorem assemble_context_matches_spec (env : GeminiEnv) (h : List Message)
    (m : String) (a : List Attachment) (hkey : env.apiKey ≠ "") :
    ((generateFinancialAdvice env h m a).2).head? =
      some { contents := assembleContextSpec h m a } ∧
    initialRequest h m a = { contents := assembleContextSpec h m a } := by
  have hspec : initialRequest h m a = { contents := assembleContextSpec h m a } := by
    unfold initialRequest assembleContextSpec pastContentOf currentPartsOf
    rw [placeholder_filter_eq]
  refine ⟨?_, hspec⟩
  rw [generateFinancialAdvice_trace, ← hspec]
  cases hb : env.backend 0 with
  | throw msg =>
    rw [adviceCore_throw_first env h m a msg hkey hb]; rfl
  | ok resp1 =>
    cases hp : firstCandidateParts resp1 with
    | none =>
      rw [adviceCore_direct env h m a resp1 hkey hb
        (fun ps hp2 => by rw [hp] at hp2; cases hp2)]
      rfl
    | some parts =>
      by_cases hne : parts.filterMap PartU.functionCallOf = []
      · rw [adviceCore_direct env h m a resp1 hkey hb
          (fun ps hp2 => by
            rw [hp] at hp2
            injection hp2 with hq
            exact hq ▸ hne)]
        rfl
      · rw [adviceCore_tools env h m a resp1 parts hkey hb hp hne]
        cases env.backend 1 <;> rfl

/-- Witness for C8 on a history holding one placeholder (dropped) and one
assistant message (mapped to `model`), plus one attachment. -/
theorem assemble_context_matches_spec_witness :
    ((generateFinancialAdvice envDirectFixture
        [{ id := "m1", content := "...", role := .user, timestamp := 1,
           attachments := none, sources := none, isPlaceholder := some true },
         { id := "m2", content := "Baik.", role := .assistant, timestamp := 2,
           attachments := none, sources := none, isPlaceholder := none }]
        "Lanjut"
        [{ name := "lk.csv", mimeType := "text/csv", data := "YSxi" }]).2).head? =
      some { contents :=
        [{ role := .model, parts := [.text "Baik."] },
         { role := .user, parts := [.text "Lanjut", .inlineData "text/csv" "YSxi"] }] } := by
  have hw := (assemble_context_matches_spec envDirectFixture
    [{ id := "m1", content := "...", role := .user, timestamp := 1,
       attachments := none, sources := none, isPlaceholder := some true },
     { id := "m2", content := "Baik.", role := .assistant, timestamp := 2,
       attachments := none, sources := none, isPlaceholder := none }]
    "Lanjut"
    [{ name := "lk.csv", mimeType := "text/csv", data := "YSxi" }] (by decide)).1
  exact hw.trans rfl

/-- Claim C9: a response's web grounding chunks map one-to-one to `{uri, title}`
citations with the title defaulting to the URI's host when the backend
supplies none (or an empty title), absent/no chunks give the empty list,
and the returned `sources` are exactly this extraction applied to the
final response. -/
theorem citations_extraction (env : GeminiEnv) (h : List Message) (m : String)
    (a : List Attachment) (resp1 : GenResponse) (hkey : env.apiKey ≠ "")
    (hb : env.backend 0 = .ok resp1)
    (hnc : ∀ parts, firstCandidateParts resp1 = some parts →
      parts.filterMap PartU.functionCallOf = []) :
    (generateFinancialAdvice env h m a).1.sources =
      extractSources env.hostname (firstCandidateChunks resp1) ∧
    (∀ hn, extractSources hn none = []) ∧
    (∀ hn cs, extractSources hn (some cs) =
      cs.filterMap (fun c => c.web.map (fun w =>
        { uri := w.uri,
          title := match w.title with
                   | some t => if t = "" then hn w.uri else t
                   | none => hn w.uri }))) := by
  refine ⟨?_, fun hn => rfl, ?_⟩
  · have hAdv := adviceCore_direct env h m a resp1 hkey hb hnc
    simp [generateFinancialAdvice, hAdv, finalizeResponse]
  · intro hn cs
    have hfold := extractSources_foldl hn cs []
    simpa [extractSources, jsOptStrOr] using hfold

/-- Witness for C9: the direct reply's chunks become two citations, the
untitled one falling back to the host. -/
theorem citations_extraction_witness :
    (generateFinancialAdvice envDirectFixture [] "Apa kabar?" []).1.sources =
      [{ uri := "https://a.example/x", title := "a.example" },
       { uri := "https://b.example/y", title := "Situs B" }] := by
  have hw := (citations_extraction envDirectFixture [] "Apa kabar?" []
    respDirectFixture (by decide) rfl
    (fun ps hp => by simp [firstCandidateParts, respDirectFixture] at hp)).1
  exact hw.trans rfl

/-! ### Session-store lemmas (shared) -/

theorem getChatSessionLocal_save (st : List ChatSession) (s : ChatSession) :
    getChatSessionLocal (saveChatSessionLocal st s) s.id = some s := by
  induction st with
  | nil => simp [saveChatSessionLocal, getChatSessionLocal]
  | cons x xs ih =>
    unfold saveChatSessionLocal getChatSessionLocal at ih ⊢
    rw [List.findIdx?_cons, List.findIdx?_succ]
    by_cases hx : x.id = s.id
    · rw [if_pos (by simp [hx])]
      exact List.find?_cons_of_pos _ (by simp)
    · rw [if_neg (by simp [hx])]
      cases hfi : List.findIdx? (fun t => decide (t.id = s.id)) xs 0 with
      | none =>
        rw [hfi] at ih
        exact (List.find?_cons_of_neg _ (by simp [hx])).trans ih
      | some i =>
        rw [hfi] at ih
        exact (List.find?_cons_of_neg _ (by simp [hx])).trans ih

theorem find_replaceAll (store : List RemoteDoc) (uid sessionId : String)
    (d : StoredDoc)
    (hx : store.any (fun e => e.uid = uid && e.sessionId = sessionId) = true) :
    (store.map (fun e => if e.uid = uid && e.sessionId = sessionId
        then RemoteDoc.mk uid sessionId d else e)).find?
      (fun e => e.uid = uid && e.sessionId = sessionId) =
      some ⟨uid, sessionId, d⟩ := by
  induction store with
  | nil => simp at hx
  | cons e es ih =>
    by_cases h1 : e.uid = uid ∧ e.sessionId = sessionId
    · simp [List.map_cons, h1.1, h1.2, List.find?_cons_of_pos]
    · have hb : (decide (e.uid = uid) && decide (e.sessionId = sessionId)) = false := by
        rcases not_and_or.mp h1 with h | h <;> simp [h]
      have hx2 : es.any (fun e => e.uid = uid && e.sessionId = sessionId) = true := by
        rw [List.any_cons, hb, Bool.false_or] at hx
        exact hx
      rw [List.map_cons, if_neg (by simp [hb]), List.find?_cons_of_neg _ (by simp [hb])]
      exact ih hx2

theorem upsertDoc_find (store : List RemoteDoc) (uid sessionId : String)
    (d : StoredDoc) :
    (upsertDoc store uid sessionId d).find?
      (fun e => e.uid = uid && e.sessionId = sessionId) =
      some ⟨uid, sessionId, d⟩ := by
  unfold upsertDoc
  cases hx : store.any (fun e => e.uid = uid && e.sessionId = sessionId) with
  | true =>
    rw [if_pos rfl]
    exact find_replaceAll store uid sessionId d hx
  | false =>
    rw [if_neg (by simp)]
    have hnone : store.find? (fun e => e.uid = uid && e.sessionId = sessionId) = none := by
      rw [List.find?_eq_none]
      intro x hxm hpx
      have : store.any (fun e => e.uid = uid && e.sessionId = sessionId) = true :=
        List.any_eq_true.mpr ⟨x, hxm, hpx⟩
      rw [this] at hx
      cases hx
    rw [List.find?_append, hnone, Option.none_or]
    simp [List.find?_cons_of_pos]

theorem jsIntOr_idem (a c : Int) : jsIntOr (jsIntOr a c) c = jsIntOr a c := by
  unfold jsIntOr
  split_ifs <;> simp_all

/-! ### Session-store claims -/

/-- Claim C5 counterexample: the claim's strict remote round-trip fails — a
saved message holding an attachment with base64 content comes back with
the content stripped (and list fields normalized), so the retrieved
messages differ from the saved ones. -/
theorem session_store_roundtrip_counterexample :
    ((saveChatSessionRemote remoteEnvFixture [] sessRoundtripFixture).toOption.bind
      (fun st => getChatSessionRemote remoteEnvFixture st "s1")).map
        (fun t => t.messages) ≠ some sessRoundtripFixture.messages ∧
    (saveChatSessionRemote remoteEnvFixture [] sessRoundtripFixture).toOption.bind
      (fun st => getChatSessionRemote remoteEnvFixture st "s1") ≠
      some sessRoundtripFixture := by
  constructor <;> decide

/-- Claim C5 (amended): the local store round-trips sessions exactly (full
attachment content retained); the remote store round-trips the title
(defaulting an empty title to "Chat Baru") and the messages up to
cleaning — attachment content is stripped to the
`{id, name, type, size, mimeType, uri}` metadata, absent attachment and
source lists are normalized to `[]`, and the placeholder flag is
dropped. -/
theorem session_store_roundtrip (stL : List ChatSession) (s : ChatSession)
    (env : RemoteEnv) (stR : List RemoteDoc) (u : String)
    (hu : env.user = some u) :
    getChatSessionLocal (saveChatSessionLocal stL s) s.id = some s ∧
    ∃ stR', saveChatSessionRemote env stR s = .ok stR' ∧
      getChatSessionRemote env stR' s.id =
        some { id := s.id, title := jsStrOr s.title "Chat Baru",
               messages := s.messages.map cleanMessageT,
               attachments := s.attachments.map cleanAttachmentT,
               createdAt := jsIntOr s.createdAt env.clientNow,
               updatedAt := jsIntOr env.serverNow env.clientNow } := by
  refine ⟨getChatSessionLocal_save stL s,
    upsertDoc stR u s.id
      { title := jsStrOr s.title "Chat Baru",
        messages := s.messages.map cleanMessageT,
        attachments := s.attachments.map cleanAttachmentT,
        createdAt := jsIntOr s.createdAt env.clientNow,
        updatedAt := env.serverNow }, ?_, ?_⟩
  · simp [saveChatSessionRemote, hu]
  · simp [getChatSessionRemote, hu, upsertDoc_find, jsIntOr_idem]

/-- Witness for the amended C5 at the concrete fixture session. -/
theorem session_store_roundtrip_witness :
    getChatSessionLocal (saveChatSessionLocal [] sessRoundtripFixture)
      sessRoundtripFixture.id = some sessRoundtripFixture ∧
    ∃ stR', saveChatSessionRemote remoteEnvFixture [] sessRoundtripFixture = .ok stR' ∧
      getChatSessionRemote remoteEnvFixture stR' sessRoundtripFixture.id =
        some { id := "s1", title := "Analisis BBCA",
               messages :=
                 [{ id := "m1", content := "Ini laporannya.", role := .user,
                    timestamp := 10,
                    attachments := some
                      [{ id := "f1", name := "lap.pdf", type := .pdf, size := 4,
                         uri := "file:///lap.pdf", content := none,
                         mimeType := "application/pdf" }],
                    sources := some [], isPlaceholder := none }],
               attachments := [], createdAt := 10, updatedAt := 500 } := by
  have h := session_store_roundtrip [] sessRoundtripFixture remoteEnvFixture [] "user-1" rfl
  obtain ⟨st', hsave, hget⟩ := h.2
  exact ⟨h.1, st', hsave, hget.trans (by decide)⟩

/-! ### Sanitizer lemmas (shared) -/

mutual

theorem cleanFields_rmFields : ∀ fs : List (String × JsVal), cleanFields (rmFields fs) = true
  | [] => by simp [rmFields, cleanFields]
  | (_, .jsUndefined) :: rest => by
    simp only [rmFields]
    exact cleanFields_rmFields rest
  | (k, .arr xs) :: rest => by
    simp only [rmFields, cleanFields, cleanVal, Bool.and_eq_true]
    exact ⟨cleanElems_rmElems xs, cleanFields_rmFields rest⟩
  | (k, .obj fs2) :: rest => by
    simp only [rmFields, cleanFields, cleanVal, Bool.and_eq_true]
    exact ⟨cleanFields_rmFields fs2, cleanFields_rmFields rest⟩
  | (k, .null) :: rest => by
    simp only [rmFields, cleanFields, cleanVal, Bool.true_and]
    exact cleanFields_rmFields rest
  | (k, .bool b) :: rest => by
    simp only [rmFields, cleanFields, cleanVal, Bool.true_and]
    exact cleanFields_rmFields rest
  | (k, .num n) :: rest => by
    simp only [rmFields, cleanFields, cleanVal, Bool.true_and]
    exact cleanFields_rmFields rest
  | (k, .str t) :: rest => by
    simp only [rmFields, cleanFields, cleanVal, Bool.true_and]
    exact cleanFields_rmFields rest

theorem cleanElems_rmElems : ∀ xs : List JsVal, cleanElems (rmElems xs) = true
  | [] => by simp [rmElems, cleanElems]
  | .obj fs :: rest => by
    simp only [rmElems, cleanElems, cleanVal, Bool.and_eq_true]
    exact ⟨cleanFields_rmFields fs, cleanElems_rmElems rest⟩
  | .arr xs2 :: rest => by
    simp only [rmElems, cleanElems, cleanVal, Bool.and_eq_true]
    exact ⟨cleanFields_rmIndexed 0 xs2, cleanElems_rmElems rest⟩
  | .jsUndefined :: rest => by
    simp only [rmElems, cleanElems, cleanVal, Bool.true_and]
    exact cleanElems_rmElems rest
  | .null :: rest => by
    simp only [rmElems, cleanElems, cleanVal, Bool.true_and]
    exact cleanElems_rmElems rest
  | .bool b :: rest => by
    simp only [rmElems, cleanElems, cleanVal, Bool.true_and]
    exact cleanElems_rmElems rest
  | .num n :: rest => by
    simp only [rmElems, cleanElems, cleanVal, Bool.true_and]
    exact cleanElems_rmElems rest
  | .str t :: rest => by
    simp only [rmElems, cleanElems, cleanVal, Bool.true_and]
    exact cleanElems_rmElems rest

theorem cleanFields_rmIndexed : ∀ (i : Nat) (xs : List JsVal),
    cleanFields (rmIndexed i xs) = true
  | _, [] => by simp [rmIndexed, cleanFields]
  | i, .jsUndefined :: rest => by
    simp only [rmIndexed]
    exact cleanFields_rmIndexed (i + 1) rest
  | i, .arr xs2 :: rest => by
    simp only [rmIndexed, cleanFields, cleanVal, Bool.and_eq_true]
    exact ⟨cleanElems_rmElems xs2, cleanFields_rmIndexed (i + 1) rest⟩
  | i, .obj fs :: rest => by
    simp only [rmIndexed, cleanFields, cleanVal, Bool.and_eq_true]
    exact ⟨cleanFields_rmFields fs, cleanFields_rmIndexed (i + 1) rest⟩
  | i, .null :: rest => by
    simp only [rmIndexed, cleanFields, cleanVal, Bool.true_and]
    exact cleanFields_rmIndexed (i + 1) rest
  | i, .bool b :: rest => by
    simp only [rmIndexed, cleanFields, cleanVal, Bool.true_and]
    exact cleanFields_rmIndexed (i + 1) rest
  | i, .num n :: rest => by
    simp only [rmIndexed, cleanFields, cleanVal, Bool.true_and]
    exact cleanFields_rmIndexed (i + 1) rest
  | i, .str t :: rest => by
    simp only [rmIndexed, cleanFields, cleanVal, Bool.true_and]
    exact cleanFields_rmIndexed (i + 1) rest

end

theorem cleanAttachmentJs_eq (att : FileAttachment) :
    cleanAttachmentJs att = .obj (rmFields (attachmentFieldsJs att)) := by
  simp [cleanAttachmentJs, attachmentLiteral, removeUndefined]

theorem undefFree_cleanAttachmentJs (att : FileAttachment) :
    undefFree (cleanAttachmentJs att) = true := by
  rw [cleanAttachmentJs_eq]
  simp [attachmentFieldsJs, rmFields, undefFree, undefFreeFields]

theorem undefFreeElems_rmElems_att (l : List FileAttachment) :
    undefFreeElems (rmElems (List.map cleanAttachmentJs l)) = true := by
  induction l with
  | nil => simp [rmElems, undefFreeElems]
  | cons a t ih =>
    rw [List.map_cons, cleanAttachmentJs_eq]
    simp only [rmElems, undefFreeElems, Bool.and_eq_true]
    refine ⟨?_, ih⟩
    simp [attachmentFieldsJs, rmFields, undefFree, undefFreeFields]

theorem undefFreeElems_rmElems_src (l : List GroundingSource) :
    undefFreeElems (rmElems (List.map sourceLiteral l)) = true := by
  induction l with
  | nil => simp [rmElems, undefFreeElems]
  | cons a t ih =>
    rw [List.map_cons, sourceLiteral]
    simp only [rmElems, undefFreeElems, Bool.and_eq_true]
    refine ⟨?_, ih⟩
    simp [rmFields, undefFree, undefFreeFields]

theorem cleanMessageJs_eq (msg : Message) :
    cleanMessageJs msg = .obj (rmFields (messageFieldsJs msg)) := by
  simp [cleanMessageJs, removeUndefined]

theorem undefFree_cleanMessageJs (msg : Message) :
    undefFree (cleanMessageJs msg) = true := by
  rw [cleanMessageJs_eq]
  simp [messageFieldsJs, rmFields, undefFree, undefFreeFields,
    undefFreeElems_rmElems_att, undefFreeElems_rmElems_src]

theorem undefFreeElems_map_att (l : List FileAttachment) :
    undefFreeElems (List.map cleanAttachmentJs l) = true := by
  induction l with
  | nil => rfl
  | cons a t ih => simp [undefFreeElems, undefFree_cleanAttachmentJs a, ih]

theorem undefFreeElems_map_msg (l : List Message) :
    undefFreeElems (List.map cleanMessageJs l) = true := by
  induction l with
  | nil => rfl
  | cons a t ih => simp [undefFreeElems, undefFree_cleanMessageJs a, ih]

/-- Claim C6: the sanitizer strips `undefined`-valued fields at every nesting
depth — no object field of a `removeUndefined` result, however deep
(inside nested objects and inside the elements of arrays), holds
`undefined` — and the concrete object `saveChatSession` hands to `setDoc`
contains no `undefined` value anywhere, for every session. -/
theorem remote_write_sanitized :
    (∀ fs : List (String × JsVal), cleanFields (rmFields fs) = true) ∧
    (∀ v : JsVal, cleanVal (removeUndefined v) = true) ∧
    (∀ (env : RemoteEnv) (session : ChatSession),
      undefFree (savePayloadJs env session) = true) := by
  refine ⟨cleanFields_rmFields, ?_, ?_⟩
  · intro v
    cases v with
    | obj fs => exact cleanFields_rmFields fs
    | arr xs => exact cleanFields_rmIndexed 0 xs
    | _ => rfl
  · intro env session
    simp [savePayloadJs, undefFree, undefFreeFields, serverTimestampSentinel,
      undefFreeElems_map_att, undefFreeElems_map_msg]

/-- Claim C10: the stock-news path is dead code returning `[]`: the gateway
function, the fmpService variant and the tool resolver all produce the
empty list with zero network calls, for every environment (hence also
with a fully valid FMP key) and every ticker/argument shape. -/
theorem stock_news_always_empty :
    (∀ (env : FmpEnv) (t : Option String), fetchStockNews env t = ([], [])) ∧
    (∀ (env : FmpSvcEnv) (s : String) (l : Nat), getStockNews env s l = ([], [])) ∧
    (∀ (env : GeminiEnv) (args : List (String × String)) (i : Option String),
      toolApiResult env { name := "get_stock_news", args := args, id := i } =
        .stockNews []) :=
  ⟨fun _ _ => rfl, fun _ _ _ => rfl, fun _ _ _ => rfl⟩

end StockPocket
